import Mathlib

/-!
Verification of the chess rules engine (pawn/knight move predicates, piece
coordinate setters, the legacy moves-made setter and the promotion dialog)
against its natural-language specification.

The Python source is shallowly embedded: pieces become a structure, the
board becomes a coordinate-to-occupant lookup, methods become pure Lean
functions mirroring the source line by line.  Machine integers are `Int`
(Python integers are unbounded).  Components of the repository that only
the spec describes (the `Board` store, `can_capture_or_occupy_square`,
`piece_classes`, the team enum) are modelled from the spec and flagged as
such in their doc comments.
-/

/-- Team labels used for direction-dependent math (`utils/type.py`,
described in the spec glossary: forward = -1 for ALLY, +1 for OPPONENT). -/
inductive TeamType where
  | ALLY
  | OPPONENT
deriving DecidableEq, Repr

/-- Piece kinds (`utils/type.py`; the six chess piece types). -/
inductive PieceType where
  | PAWN
  | KNIGHT
  | BISHOP
  | ROOK
  | QUEEN
  | KING
deriving DecidableEq, Repr

/-- A piece as in `src/pieces/piece.py`: coordinates, team, color and type
(the display symbol is omitted: no predicate reads it). -/
structure Piece where
  x : Int
  y : Int
  team : TeamType
  is_white : Bool
  type : PieceType
deriving DecidableEq, Repr

/-- Modelled from the spec: `Board` (not under `src/`) is "an 8x8
coordinate-addressable store of optional piece occupants; pure storage, no
rule knowledge".  Only its `pieceAt` lookup is read by the predicates. -/
structure Board where
  pieceAt : Int → Int → Option Piece

/-- `piece_at` accessor used by the piece predicates. -/
def Board.piece_at (b : Board) (x y : Int) : Option Piece :=
  b.pieceAt x y

/-- Modelled from the spec: `can_capture_or_occupy_square` (declared on the
shared `Piece` base, not under `src/`): a destination occupied by an
own-color piece is always illegal; an empty square or one occupied by an
opponent piece may be captured or occupied. -/
def Piece.can_capture_or_occupy_square (self : Piece) (x y : Int) (board : Board) : Bool :=
  match board.piece_at x y with
  | none => true
  | some p => self.is_white != p.is_white

/-- A recorded move: `(piece, start_position, end_position)` exactly as
unpacked from `game_engine.last_move` in `Pawn.en_passant`. -/
abbrev LastMove := Piece × (Int × Int) × (Int × Int)

/-- The part of `GameEngine` the embedded predicates read: the optional
last move (`game_engine.last_move`). -/
structure GameEngine where
  last_move : Option LastMove

/-- The part of `ChessGame` the embedded predicates read: its board and
engine. -/
structure ChessGame where
  board : Board
  engine : GameEngine

/-- The line `direction = -1 if self.team == TeamType.ALLY else 1` that
opens every Pawn method: the pawn's forward direction. -/
def pawnDirection (self : Piece) : Int :=
  if self.team = TeamType.ALLY then -1 else 1

/-- The line `capture_rank = 3 if self.team == TeamType.ALLY else 4` of
`Pawn.en_passant`: the rank from which en passant may be played. -/
def pawnCaptureRank (self : Piece) : Int :=
  if self.team = TeamType.ALLY then 3 else 4

namespace Pawn

/-- `Pawn.en_passant` from `src/pieces/pawn.py`, lines 58-104, transcribed
clause by clause. -/
def en_passant (self : Piece) (px py x y : Int) (game_engine : GameEngine) : Bool :=
  let dx := x - px
  let dy := y - py
  let direction : Int := pawnDirection self
  let capture_rank : Int := pawnCaptureRank self
  match game_engine.last_move with
  | none => false
  | some lm =>
    let last_piece_moved := lm.1
    let last_start_pos := lm.2.1
    let last_end_pos := lm.2.2
    if last_piece_moved.type ≠ PieceType.PAWN then false
    else if self.is_white = last_piece_moved.is_white then false
    else
      let is_on_same_row : Bool := last_end_pos.2 == py
      let is_directly_next_to_pawn : Bool := (last_end_pos.1 - px).natAbs == 1
      if is_on_same_row && is_directly_next_to_pawn then
        if last_start_pos.2 - last_end_pos.2 == 2 * direction then
          if py == capture_rank && dy == direction && dx == last_end_pos.1 - px then
            true
          else false
        else false
      else false

/-- `Pawn._moving_forward` from `src/pieces/pawn.py`, lines 132-160. -/
def moving_forward (self : Piece) (px py x y : Int) (board : Board) : Bool :=
  let dx := x - px
  let dy := y - py
  let direction : Int := pawnDirection self
  let is_in_starting_position : Bool :=
    if self.team = TeamType.ALLY then py == 6 else py == 1
  if dx == 0 && dy == direction && (board.piece_at x y).isNone then
    true
  else if dx == 0 && is_in_starting_position && dy == 2 * direction &&
      (board.piece_at x y).isNone && (board.piece_at px (py + direction)).isNone then
    true
  else false

/-- `Pawn._capturing` from `src/pieces/pawn.py`, lines 162-184. -/
def capturing (self : Piece) (px py x y : Int) (board : Board) : Bool :=
  let dx := x - px
  let dy := y - py
  let direction : Int := pawnDirection self
  ((dx.natAbs == 1) && (dy == direction)) &&
    ((board.piece_at x y).isSome && self.can_capture_or_occupy_square x y board)

/-- `Pawn.legal_move` from `src/pieces/pawn.py`, lines 37-56. -/
def legal_move (self : Piece) (px py x y : Int) (chess_game : ChessGame) : Bool :=
  if moving_forward self px py x y chess_game.board ||
      capturing self px py x y chess_game.board ||
      en_passant self px py x y chess_game.engine then
    true
  else false

/-- `Pawn.is_controlled_square` from `src/pieces/pawn.py`, lines 106-130. -/
def is_controlled_square (self : Piece) (current_x current_y target_x target_y : Int)
    (chess_game : ChessGame) : Bool :=
  let dx := target_x - current_x
  let dy := target_y - current_y
  let direction : Int := pawnDirection self
  let is_capture_square : Bool :=
    ((dx.natAbs == 1) && (dy == direction)) &&
      self.can_capture_or_occupy_square target_x target_y chess_game.board
  is_capture_square ||
    en_passant self current_x current_y target_x target_y chess_game.engine

end Pawn

namespace Knight

/-- `Knight.legal_move` from `src/pieces/knight.py`, lines 37-54. -/
def legal_move (self : Piece) (px py x y : Int) (chess_game : ChessGame) : Bool :=
  let dx := (x - px).natAbs
  let dy := (y - py).natAbs
  ((dx == 2 && dy == 1) || (dx == 1 && dy == 2)) &&
    self.can_capture_or_occupy_square x y chess_game.board

end Knight

/-- The spec's conditions for en passant, written from the claim's words:
the recorded last move is a double step by a pawn of the opposite color;
its landing square is on the capturing pawn's rank, exactly one file away;
the capturing pawn stands on the capture rank (3 for ALLY, 4 for
OPPONENT); and the proposed move is one diagonal step in the pawn's
forward direction onto the double-stepped pawn's file. -/
def enPassantSpec (self : Piece) (px py x y : Int) (game_engine : GameEngine) : Prop :=
  ∃ lm : LastMove, game_engine.last_move = some lm ∧
    lm.1.type = PieceType.PAWN ∧
    lm.1.is_white ≠ self.is_white ∧
    lm.2.1.2 - lm.2.2.2 = 2 * pawnDirection self ∧
    lm.2.2.2 = py ∧
    (lm.2.2.1 - px).natAbs = 1 ∧
    py = pawnCaptureRank self ∧
    y - py = pawnDirection self ∧
    x = lm.2.2.1

/-- The white pawn of the spec's en-passant example, standing at (4,3). -/
def whitePawnC1 : Piece :=
  { x := 4, y := 3, team := TeamType.ALLY, is_white := true, type := PieceType.PAWN }

/-- The black pawn of the spec's en-passant example, which just played
(3,1) → (3,3). -/
def blackPawnC1 : Piece :=
  { x := 3, y := 3, team := TeamType.OPPONENT, is_white := false, type := PieceType.PAWN }

/-- The board of the spec's en-passant example: the white pawn at (4,3)
and the black pawn at (3,3). -/
def boardC1 : Board :=
  ⟨fun x y =>
    if x = 4 ∧ y = 3 then some whitePawnC1
    else if x = 3 ∧ y = 3 then some blackPawnC1
    else none⟩

/-- The game of the spec's en-passant example: the preceding move was the
black pawn's double step (3,1) → (3,3). -/
def gameC1 : ChessGame :=
  { board := boardC1
    engine := { last_move := some (blackPawnC1, (3, 1), (3, 3)) } }

/-- Shared characterization: `Pawn.en_passant` holds exactly when
`enPassantSpec` does.  Used by several of the claim theorems below. -/
lemma en_passant_eq_spec (self : Piece) (px py x y : Int) (game_engine : GameEngine) :
    Pawn.en_passant self px py x y game_engine = true ↔
      enPassantSpec self px py x y game_engine := by
  simp only [Pawn.en_passant, enPassantSpec]
  cases h : game_engine.last_move with
  | none => simp
  | some lm =>
    simp only [Option.some.injEq, exists_eq_left']
    constructor
    · intro hcode
      revert hcode
      split_ifs with h1 h2 h3 h4 h5 <;> intro hcode <;>
        try exact hcode.elim
      rw [not_not] at h1
      simp only [Bool.and_eq_true, beq_iff_eq] at h3 h4 h5
      exact ⟨h1, fun hc => h2 hc.symm, h4, h3.1, h3.2, h5.1.1, h5.1.2, by omega⟩
    · rintro ⟨hty, hcol, hdbl, hrow, hadj, hrank, hdy, hx⟩
      split_ifs with h1 h2 h3 h4 h5 <;> simp_all

/-- If `Pawn.en_passant` accepts a move, that move steps exactly one file
sideways (helper shared by the claim theorems). -/
lemma en_passant_dx (self : Piece) (px py x y : Int) (game_engine : GameEngine)
    (h : Pawn.en_passant self px py x y game_engine = true) : (x - px).natAbs = 1 := by
  obtain ⟨lm, -, -, -, -, -, hadj, -, -, hx⟩ := (en_passant_eq_spec self px py x y game_engine).mp h
  omega

/-- C1: `Pawn.en_passant` returns true exactly under the spec's conditions
(preceding double step by an opposite-color pawn landing on the same rank
one file away, capturing pawn on the capture rank, move one diagonal
forward step onto that pawn's file); and in the spec's example, the white
pawn at (4,3) may play (4,3) → (3,2) after black's (3,1) → (3,3). -/
theorem en_passant_iff_spec :
    (∀ (self : Piece) (px py x y : Int) (game_engine : GameEngine),
      Pawn.en_passant self px py x y game_engine = true ↔
        enPassantSpec self px py x y game_engine) ∧
    Pawn.legal_move whitePawnC1 4 3 3 2 gameC1 = true := by
  exact ⟨en_passant_eq_spec, by decide⟩

/-- The white (ALLY) pawn at (4,4) used to refute the claim that a pawn
always controls both diagonal-forward squares. -/
def pawnC2 : Piece :=
  { x := 4, y := 4, team := TeamType.ALLY, is_white := true, type := PieceType.PAWN }

/-- A white knight standing on (3,3), the square diagonally in front of
`pawnC2`. -/
def ownKnightC2 : Piece :=
  { x := 3, y := 3, team := TeamType.ALLY, is_white := true, type := PieceType.KNIGHT }

/-- Game in which `pawnC2`'s diagonal-forward square (3,3) holds a piece
of its own color and no move has been played. -/
def gameC2 : ChessGame :=
  { board := ⟨fun x y =>
      if x = 4 ∧ y = 4 then some pawnC2
      else if x = 3 ∧ y = 3 then some ownKnightC2
      else none⟩
    engine := { last_move := none } }

/-- C2 counterexample: (3,3) is a diagonal-forward square of the white
pawn at (4,4) (one file away, one rank ahead in its forward direction),
yet `Pawn.is_controlled_square` returns false because (3,3) holds a piece
of the pawn's own color.  The claim that the controlled set is exactly the
two diagonal-forward squares therefore fails. -/
theorem is_controlled_square_own_piece_cex :
    ((3 : Int) - 4).natAbs = 1 ∧ (3 : Int) - 4 = pawnDirection pawnC2 ∧
    Pawn.is_controlled_square pawnC2 4 4 3 3 gameC2 = false := by
  decide

/-- C2 amended: the squares a pawn controls are always among its two
diagonal-forward squares — a diagonal-forward square is controlled exactly
when it is empty or opponent-occupied (or the move is a valid en passant)
— and the square straight ahead of the pawn is never controlled. -/
theorem is_controlled_square_amended (self : Piece)
    (current_x current_y target_x target_y : Int) (chess_game : ChessGame) :
    (Pawn.is_controlled_square self current_x current_y target_x target_y chess_game = true ↔
      ((target_x - current_x).natAbs = 1 ∧
        target_y - current_y = pawnDirection self ∧
        self.can_capture_or_occupy_square target_x target_y chess_game.board = true) ∨
      Pawn.en_passant self current_x current_y target_x target_y chess_game.engine = true) ∧
    (target_x = current_x →
      Pawn.is_controlled_square self current_x current_y target_x target_y chess_game = false) := by
  have hiff : Pawn.is_controlled_square self current_x current_y target_x target_y
        chess_game = true ↔
      ((target_x - current_x).natAbs = 1 ∧
        target_y - current_y = pawnDirection self ∧
        self.can_capture_or_occupy_square target_x target_y chess_game.board = true) ∨
      Pawn.en_passant self current_x current_y target_x target_y chess_game.engine = true := by
    simp only [Pawn.is_controlled_square, Bool.or_eq_true, Bool.and_eq_true, beq_iff_eq]
    tauto
  refine ⟨hiff, fun hx => ?_⟩
  rw [Bool.eq_false_iff]
  intro hc
  rcases hiff.mp hc with ⟨habs, -, -⟩ | hep
  · omega
  · have := en_passant_dx self current_x current_y target_x target_y chess_game.engine hep
    omega

/-- The rank a pawn starts on, as compared in `_moving_forward`'s line
`is_in_starting_position = (py == 6 if self.team == TeamType.ALLY else py == 1)`:
6 for ALLY, 1 for OPPONENT. -/
def pawnStartRank (self : Piece) : Int :=
  if self.team = TeamType.ALLY then 6 else 1

/-- C3: a same-file pawn move is accepted by `Pawn.legal_move` exactly
when it is a single forward step onto an empty square, or a double forward
step from the starting rank with both the intermediate and the destination
square empty. -/
theorem pawn_forward_move_iff (self : Piece) (px py x y : Int) (chess_game : ChessGame)
    (hsame : x = px) :
    Pawn.legal_move self px py x y chess_game = true ↔
      ((y - py = pawnDirection self ∧ chess_game.board.piece_at x y = none) ∨
        (py = pawnStartRank self ∧ y - py = 2 * pawnDirection self ∧
          chess_game.board.piece_at x y = none ∧
          chess_game.board.piece_at px (py + pawnDirection self) = none)) := by
  have hcap : Pawn.capturing self px py x y chess_game.board = false := by
    simp only [Pawn.capturing, Bool.and_eq_true, Bool.eq_false_iff, ne_eq, Bool.and_eq_true,
      beq_iff_eq]
    rintro ⟨⟨habs, -⟩, -⟩
    omega
  have hep : Pawn.en_passant self px py x y chess_game.engine = false := by
    rw [Bool.eq_false_iff]
    intro h
    have := en_passant_dx self px py x y chess_game.engine h
    omega
  have hmf : Pawn.legal_move self px py x y chess_game =
      Pawn.moving_forward self px py x y chess_game.board := by
    simp [Pawn.legal_move, hcap, hep]
  rw [hmf]
  subst hsame
  cases hteam : self.team with
  | ALLY =>
    simp [Pawn.moving_forward, pawnDirection, pawnStartRank, hteam, ite_eq_iff,
      Bool.and_eq_true, beq_iff_eq, Option.isNone_iff_eq_none]
    tauto
  | OPPONENT =>
    simp [Pawn.moving_forward, pawnDirection, pawnStartRank, hteam, ite_eq_iff,
      Bool.and_eq_true, beq_iff_eq, Option.isNone_iff_eq_none]
    tauto

/-- An empty board with no move history, used by several witnesses. -/
def emptyGame : ChessGame :=
  { board := ⟨fun _ _ => none⟩, engine := { last_move := none } }

/-- A white (ALLY) pawn on its starting rank, at (4,6). -/
def pawnC3 : Piece :=
  { x := 4, y := 6, team := TeamType.ALLY, is_white := true, type := PieceType.PAWN }

/-- Witness for C3: on an empty board the pawn at (4,6) may double-step to
(4,4). -/
theorem pawn_forward_move_iff_witness :
    Pawn.legal_move pawnC3 4 6 4 4 emptyGame = true :=
  (pawn_forward_move_iff pawnC3 4 6 4 4 emptyGame rfl).mpr (by decide)

/-- Witness for C2's amended theorem: the square (4,3) straight ahead of
the pawn at (4,4) is not controlled. -/
theorem is_controlled_square_amended_witness :
    Pawn.is_controlled_square pawnC2 4 4 4 3 gameC2 = false :=
  (is_controlled_square_amended pawnC2 4 4 4 3 gameC2).2 rfl

/-- C4: a one-step diagonal-forward pawn move that is not a valid
en passant is accepted by `Pawn.legal_move` exactly when the destination
square holds a piece of the opposite color; a diagonal move onto a vacant
square or an own-color piece is rejected. -/
theorem pawn_diagonal_capture_iff (self : Piece) (px py x y : Int) (chess_game : ChessGame)
    (hdx : (x - px).natAbs = 1) (hdy : y - py = pawnDirection self)
    (hep : Pawn.en_passant self px py x y chess_game.engine = false) :
    Pawn.legal_move self px py x y chess_game = true ↔
      ∃ p : Piece, chess_game.board.piece_at x y = some p ∧ p.is_white ≠ self.is_white := by
  have hx0 : (x - px == 0) = false := by
    rw [beq_eq_false_iff_ne]
    omega
  have hmf : Pawn.moving_forward self px py x y chess_game.board = false := by
    simp [Pawn.moving_forward, hx0]
  have hleg : Pawn.legal_move self px py x y chess_game =
      Pawn.capturing self px py x y chess_game.board := by
    simp [Pawn.legal_move, hmf, hep]
  rw [hleg]
  simp only [Pawn.capturing, Piece.can_capture_or_occupy_square]
  cases hb : chess_game.board.piece_at x y with
  | none => simp
  | some p =>
    simp only [Option.isSome_some, Option.some.injEq, exists_eq_left', Bool.true_and,
      Bool.and_eq_true, beq_iff_eq, bne_iff_ne]
    constructor
    · rintro ⟨-, hne⟩
      exact fun hc => hne hc.symm
    · intro hne
      exact ⟨⟨by omega, hdy⟩, fun hc => hne hc.symm⟩

/-- The white (ALLY) pawn at (4,4) of the C4 witness. -/
def pawnC4 : Piece :=
  { x := 4, y := 4, team := TeamType.ALLY, is_white := true, type := PieceType.PAWN }

/-- The black knight standing on (3,3), diagonally in front of `pawnC4`. -/
def blackKnightC4 : Piece :=
  { x := 3, y := 3, team := TeamType.OPPONENT, is_white := false, type := PieceType.KNIGHT }

/-- Game with the black knight on (3,3) and no move history. -/
def gameC4 : ChessGame :=
  { board := ⟨fun x y => if x = 3 ∧ y = 3 then some blackKnightC4 else none⟩
    engine := { last_move := none } }

/-- Witness for C4: the pawn at (4,4) may capture the black knight on
(3,3). -/
theorem pawn_diagonal_capture_iff_witness :
    Pawn.legal_move pawnC4 4 4 3 3 gameC4 = true :=
  (pawn_diagonal_capture_iff pawnC4 4 4 3 3 gameC4 (by decide) (by decide) (by decide)).mpr
    ⟨blackKnightC4, by decide, by decide⟩

/-- C5: `Knight.legal_move` accepts exactly the moves with
(|dx|,|dy|) ∈ {(1,2),(2,1)} whose destination holds no own-color piece,
and its verdict depends only on the destination square's occupant (no
intervening square affects it). -/
theorem knight_legal_move_iff :
    (∀ (self : Piece) (px py x y : Int) (chess_game : ChessGame),
      Knight.legal_move self px py x y chess_game = true ↔
        (((x - px).natAbs = 1 ∧ (y - py).natAbs = 2) ∨
          ((x - px).natAbs = 2 ∧ (y - py).natAbs = 1)) ∧
        ¬ ∃ p : Piece, chess_game.board.piece_at x y = some p ∧
          p.is_white = self.is_white) ∧
    (∀ (self : Piece) (px py x y : Int) (g g' : ChessGame),
      g.board.piece_at x y = g'.board.piece_at x y →
        Knight.legal_move self px py x y g = Knight.legal_move self px py x y g') := by
  constructor
  · intro self px py x y chess_game
    simp only [Knight.legal_move, Piece.can_capture_or_occupy_square]
    cases hb : chess_game.board.piece_at x y with
    | none =>
      simp only [Bool.and_true, Bool.or_eq_true, Bool.and_eq_true, beq_iff_eq]
      constructor
      · rintro (⟨h1, h2⟩ | ⟨h1, h2⟩)
        · exact ⟨Or.inr ⟨h1, h2⟩, by rintro ⟨p, hp, -⟩; exact Option.noConfusion hp⟩
        · exact ⟨Or.inl ⟨h1, h2⟩, by rintro ⟨p, hp, -⟩; exact Option.noConfusion hp⟩
      · rintro ⟨h1 | h1, -⟩
        · exact Or.inr h1
        · exact Or.inl h1
    | some p =>
      simp only [Option.some.injEq, Bool.and_eq_true, Bool.or_eq_true, beq_iff_eq, bne_iff_ne]
      constructor
      · rintro ⟨h1 | h1, hne⟩ <;>
          refine ⟨by tauto, ?_⟩ <;>
          · rintro ⟨p', hp', hw⟩
            cases hp'
            exact hne hw.symm
      · rintro ⟨h1 | h1, hno⟩ <;>
          refine ⟨by tauto, fun hc => hno ⟨p, rfl, hc.symm⟩⟩
  · intro self px py x y g g' hsq
    simp only [Knight.legal_move, Piece.can_capture_or_occupy_square, hsq]

/-- The white knight at (0,0) of the C5 witness. -/
def knightC5 : Piece :=
  { x := 0, y := 0, team := TeamType.ALLY, is_white := true, type := PieceType.KNIGHT }

/-- A game whose board differs from the empty board away from the
destination square (1,2): it has `knightC5` on (0,0). -/
def gameC5b : ChessGame :=
  { board := ⟨fun x y => if x = 0 ∧ y = 0 then some knightC5 else none⟩
    engine := { last_move := none } }

/-- Witness for C5: the jump (0,0) → (1,2) is legal on the empty board and
its verdict is unchanged when the rest of the board changes. -/
theorem knight_legal_move_iff_witness :
    Knight.legal_move knightC5 0 0 1 2 emptyGame = Knight.legal_move knightC5 0 0 1 2 gameC5b ∧
    Knight.legal_move knightC5 0 0 1 2 emptyGame = true :=
  ⟨knight_legal_move_iff.2 knightC5 0 0 1 2 emptyGame gameC5b (by decide),
   (knight_legal_move_iff.1 knightC5 0 0 1 2 emptyGame).mpr
     ⟨by decide, by rintro ⟨p, hp, -⟩; exact Option.noConfusion hp⟩⟩

/-- A Python value as it may be handed to a property setter: an integer or
something that is not an integer (a Python `bool` is a subclass of `int`
and is modelled as the integer 0 or 1). -/
inductive PyVal where
  | int (n : Int)
  | str (s : String)
  | pynone
deriving DecidableEq, Repr

/-- The exception kinds raised by the property setters. -/
inductive PyError where
  | typeError
  | valueError
deriving DecidableEq, Repr

/-- Outcome of a setter call: returned normally, or raised an exception. -/
inductive PyOutcome where
  | ok
  | raised (e : PyError)
deriving DecidableEq, Repr

/-- The `x` setter of `src/pieces/piece.py` (lines 51-63): `TypeError`
unless the value is an integer, `ValueError` unless `0 <= value < 8`,
otherwise store it.  The result pairs the raised-or-ok outcome with the
piece afterwards (unchanged when an error is raised). -/
def Piece.set_x (self : Piece) (value : PyVal) : PyOutcome × Piece :=
  match value with
  | PyVal.int n =>
    if 0 ≤ n ∧ n < 8 then (PyOutcome.ok, { self with x := n })
    else (PyOutcome.raised PyError.valueError, self)
  | _ => (PyOutcome.raised PyError.typeError, self)

/-- The `y` setter of `src/pieces/piece.py` (lines 65-77), identical to
the `x` setter but for the `y` coordinate. -/
def Piece.set_y (self : Piece) (value : PyVal) : PyOutcome × Piece :=
  match value with
  | PyVal.int n =>
    if 0 ≤ n ∧ n < 8 then (PyOutcome.ok, { self with y := n })
    else (PyOutcome.raised PyError.valueError, self)
  | _ => (PyOutcome.raised PyError.typeError, self)

/-- C6: assigning to a piece's x (or y) coordinate succeeds exactly when
the value is an integer with 0 ≤ v < 8, in which case that integer is
stored; any other value raises an error and leaves the stored coordinate
(indeed the whole piece) unchanged. -/
theorem set_coordinate_ok_iff (self : Piece) (value : PyVal) :
    ((Piece.set_x self value).1 = PyOutcome.ok ↔
      ∃ n : Int, value = PyVal.int n ∧ 0 ≤ n ∧ n < 8) ∧
    (∀ n : Int, value = PyVal.int n → 0 ≤ n → n < 8 →
      Piece.set_x self value = (PyOutcome.ok, { self with x := n })) ∧
    ((Piece.set_x self value).1 ≠ PyOutcome.ok → (Piece.set_x self value).2 = self) ∧
    ((Piece.set_y self value).1 = PyOutcome.ok ↔
      ∃ n : Int, value = PyVal.int n ∧ 0 ≤ n ∧ n < 8) ∧
    (∀ n : Int, value = PyVal.int n → 0 ≤ n → n < 8 →
      Piece.set_y self value = (PyOutcome.ok, { self with y := n })) ∧
    ((Piece.set_y self value).1 ≠ PyOutcome.ok → (Piece.set_y self value).2 = self) := by
  refine ⟨?_, ?_, ?_, ?_, ?_, ?_⟩
  · cases value with
    | int n =>
      by_cases h : 0 ≤ n ∧ n < 8
      · exact iff_of_true (by simp [Piece.set_x, h]) ⟨n, rfl, h⟩
      · exact iff_of_false (by simp [Piece.set_x, h])
          (by rintro ⟨m, hm, hm2⟩; cases hm; exact h hm2)
    | str s =>
      exact iff_of_false (by simp [Piece.set_x])
        (by rintro ⟨m, hm, -⟩; exact PyVal.noConfusion hm)
    | pynone =>
      exact iff_of_false (by simp [Piece.set_x])
        (by rintro ⟨m, hm, -⟩; exact PyVal.noConfusion hm)
  · rintro n rfl h0 h8
    simp [Piece.set_x, h0, h8]
  · intro hne
    cases value with
    | int n =>
      by_cases h : 0 ≤ n ∧ n < 8
      · exact absurd (by simp [Piece.set_x, h]) hne
      · simp [Piece.set_x, h]
    | str s => simp [Piece.set_x]
    | pynone => simp [Piece.set_x]
  · cases value with
    | int n =>
      by_cases h : 0 ≤ n ∧ n < 8
      · exact iff_of_true (by simp [Piece.set_y, h]) ⟨n, rfl, h⟩
      · exact iff_of_false (by simp [Piece.set_y, h])
          (by rintro ⟨m, hm, hm2⟩; cases hm; exact h hm2)
    | str s =>
      exact iff_of_false (by simp [Piece.set_y])
        (by rintro ⟨m, hm, -⟩; exact PyVal.noConfusion hm)
    | pynone =>
      exact iff_of_false (by simp [Piece.set_y])
        (by rintro ⟨m, hm, -⟩; exact PyVal.noConfusion hm)
  · rintro n rfl h0 h8
    simp [Piece.set_y, h0, h8]
  · intro hne
    cases value with
    | int n =>
      by_cases h : 0 ≤ n ∧ n < 8
      · exact absurd (by simp [Piece.set_y, h]) hne
      · simp [Piece.set_y, h]
    | str s => simp [Piece.set_y]
    | pynone => simp [Piece.set_y]

/-- A concrete piece for the setter witnesses. -/
def pieceC6 : Piece :=
  { x := 0, y := 0, team := TeamType.ALLY, is_white := true, type := PieceType.ROOK }

/-- Witness for C6: assigning 5 to x succeeds and stores 5; assigning a
string fails and leaves the piece unchanged. -/
theorem set_coordinate_ok_iff_witness :
    Piece.set_x pieceC6 (PyVal.int 5) = (PyOutcome.ok, { pieceC6 with x := 5 }) ∧
    (Piece.set_y pieceC6 (PyVal.str "a")).2 = pieceC6 :=
  ⟨(set_coordinate_ok_iff pieceC6 (PyVal.int 5)).2.1 5 rfl (by decide) (by decide),
   (set_coordinate_ok_iff pieceC6 (PyVal.str "a")).2.2.2.2.2 (by decide)⟩

namespace Legacy

/-- The legacy piece of `src/piece.py`: color, name (omitted: never read
by predicates), captured flag and moves-made counter. -/
structure Piece where
  is_white : Bool
  captured : Bool
  moves_made : Int
deriving DecidableEq, Repr

/-- The `moves_made` setter of `src/piece.py` (lines 75-80): it stores any
integer as given and raises `TypeError` for anything else, leaving the
piece unchanged. -/
def Piece.set_moves_made (self : Piece) (value : PyVal) : PyOutcome × Piece :=
  match value with
  | PyVal.int n => (PyOutcome.ok, { self with moves_made := n })
  | _ => (PyOutcome.raised PyError.typeError, self)

end Legacy

/-- C7 counterexample: a piece whose counter is 1 accepts the assignment
of -3 through the `moves_made` setter, storing a value that is both
negative and smaller than the previous one — refuting the claim that every
accepted assignment is non-negative and non-decreasing. -/
theorem moves_made_setter_cex :
    (Legacy.Piece.set_moves_made ⟨true, false, 1⟩ (PyVal.int (-3))).1 = PyOutcome.ok ∧
    (Legacy.Piece.set_moves_made ⟨true, false, 1⟩ (PyVal.int (-3))).2.moves_made = -3 ∧
    ((-3 : Int) < 0 ∧ (-3 : Int) < 1) := by
  decide

/-- C7 amended: the `moves_made` setter accepts every integer — including
negative ones and ones smaller than the stored counter — and stores it
verbatim; only non-integers are rejected (`TypeError`), leaving the piece
unchanged.  Neither non-negativity nor monotonicity is enforced by the
setter. -/
theorem moves_made_setter_amended (self : Legacy.Piece) (value : PyVal) :
    (∀ n : Int, value = PyVal.int n →
      Legacy.Piece.set_moves_made self value = (PyOutcome.ok, { self with moves_made := n })) ∧
    ((∀ n : Int, value ≠ PyVal.int n) →
      Legacy.Piece.set_moves_made self value = (PyOutcome.raised PyError.typeError, self)) := by
  cases value with
  | int n =>
    refine ⟨?_, ?_⟩
    · rintro m hm
      cases hm
      rfl
    · intro h
      exact absurd rfl (h n)
  | str s => exact ⟨fun _ hn => PyVal.noConfusion hn, fun _ => rfl⟩
  | pynone => exact ⟨fun _ hn => PyVal.noConfusion hn, fun _ => rfl⟩

/-- Witness for C7's amended theorem: the setter stores -3 over 5, and a
string assignment fails leaving the piece unchanged. -/
theorem moves_made_setter_amended_witness :
    Legacy.Piece.set_moves_made ⟨true, false, 5⟩ (PyVal.int (-3)) =
      (PyOutcome.ok, ⟨true, false, -3⟩) ∧
    Legacy.Piece.set_moves_made ⟨true, false, 5⟩ (PyVal.str "a") =
      (PyOutcome.raised PyError.typeError, ⟨true, false, 5⟩) :=
  ⟨(moves_made_setter_amended ⟨true, false, 5⟩ (PyVal.int (-3))).1 (-3) rfl,
   (moves_made_setter_amended ⟨true, false, 5⟩ (PyVal.str "a")).2
     (fun _ hn => PyVal.noConfusion hn)⟩

/-- Effectful view of the board read used for the purity claim: the call
returns the occupant together with the game state after the call. -/
def ChessGame.piece_at_st (g : ChessGame) (x y : Int) : Option Piece × ChessGame :=
  (g.board.piece_at x y, g)

/-- Effectful view of the `game_engine.last_move` read. -/
def ChessGame.last_move_st (g : ChessGame) : Option LastMove × ChessGame :=
  (g.engine.last_move, g)

/-- Effectful view of `can_capture_or_occupy_square`, threading the game
state through its single board read. -/
def Piece.can_capture_or_occupy_square_st (self : Piece) (x y : Int) (g : ChessGame) :
    Bool × ChessGame :=
  let r := g.piece_at_st x y
  match r.1 with
  | none => (true, r.2)
  | some p => (self.is_white != p.is_white, r.2)

namespace Pawn

/-- `Pawn._moving_forward` with the game state threaded through each board
read, mirroring the statement order of the Python body. -/
def moving_forward_st (self : Piece) (px py x y : Int) (g : ChessGame) : Bool × ChessGame :=
  let dx := x - px
  let dy := y - py
  let direction : Int := pawnDirection self
  let is_in_starting_position : Bool :=
    if self.team = TeamType.ALLY then py == 6 else py == 1
  let r1 := g.piece_at_st x y
  if dx == 0 && dy == direction && r1.1.isNone then
    (true, r1.2)
  else
    let r2 := r1.2.piece_at_st x y
    let r3 := r2.2.piece_at_st px (py + direction)
    if dx == 0 && is_in_starting_position && dy == 2 * direction &&
        r2.1.isNone && r3.1.isNone then
      (true, r3.2)
    else (false, r3.2)

/-- `Pawn._capturing` with the game state threaded through its reads. -/
def capturing_st (self : Piece) (px py x y : Int) (g : ChessGame) : Bool × ChessGame :=
  let dx := x - px
  let dy := y - py
  let direction : Int := pawnDirection self
  if (dx.natAbs == 1) && (dy == direction) then
    let r1 := g.piece_at_st x y
    let r2 := self.can_capture_or_occupy_square_st x y r1.2
    (r1.1.isSome && r2.1, r2.2)
  else (false, g)

/-- `Pawn.en_passant` with the game state threaded through its single
`last_move` read; the remaining checks are pure field reads of the
retrieved record. -/
def en_passant_st (self : Piece) (px py x y : Int) (g : ChessGame) : Bool × ChessGame :=
  let r := g.last_move_st
  match r.1 with
  | none => (false, r.2)
  | some lm =>
    if lm.1.type ≠ PieceType.PAWN then (false, r.2)
    else if self.is_white = lm.1.is_white then (false, r.2)
    else if (lm.2.2.2 == py) && ((lm.2.2.1 - px).natAbs == 1) then
      if lm.2.1.2 - lm.2.2.2 == 2 * pawnDirection self then
        if py == pawnCaptureRank self && (y - py) == pawnDirection self &&
            (x - px) == lm.2.2.1 - px then
          (true, r.2)
        else (false, r.2)
      else (false, r.2)
    else (false, r.2)

/-- `Pawn.legal_move` with the game state threaded through its three
short-circuited calls. -/
def legal_move_st (self : Piece) (px py x y : Int) (g : ChessGame) : Bool × ChessGame :=
  let r1 := moving_forward_st self px py x y g
  if r1.1 then (true, r1.2)
  else
    let r2 := capturing_st self px py x y r1.2
    if r2.1 then (true, r2.2)
    else
      let r3 := en_passant_st self px py x y r2.2
      if r3.1 then (true, r3.2) else (false, r3.2)

end Pawn

namespace Knight

/-- `Knight.legal_move` with the game state threaded through its reads. -/
def legal_move_st (self : Piece) (px py x y : Int) (g : ChessGame) : Bool × ChessGame :=
  let dx := (x - px).natAbs
  let dy := (y - py).natAbs
  if (dx == 2 && dy == 1) || (dx == 1 && dy == 2) then
    let r := self.can_capture_or_occupy_square_st x y g
    (r.1, r.2)
  else (false, g)

end Knight

/-- Shared helper: the threaded `_moving_forward` returns the pure value
and the unchanged state. -/
lemma moving_forward_st_eq (self : Piece) (px py x y : Int) (g : ChessGame) :
    Pawn.moving_forward_st self px py x y g =
      (Pawn.moving_forward self px py x y g.board, g) := by
  simp only [Pawn.moving_forward_st, Pawn.moving_forward, ChessGame.piece_at_st]
  split_ifs <;> rfl

/-- Shared helper: the threaded `can_capture_or_occupy_square` returns the
pure value and the unchanged state. -/
lemma can_capture_st_eq (self : Piece) (x y : Int) (g : ChessGame) :
    self.can_capture_or_occupy_square_st x y g =
      (self.can_capture_or_occupy_square x y g.board, g) := by
  simp only [Piece.can_capture_or_occupy_square_st, Piece.can_capture_or_occupy_square,
    ChessGame.piece_at_st]
  cases g.board.piece_at x y <;> rfl

/-- Shared helper: the threaded `_capturing` returns the pure value and
the unchanged state. -/
lemma capturing_st_eq (self : Piece) (px py x y : Int) (g : ChessGame) :
    Pawn.capturing_st self px py x y g =
      (Pawn.capturing self px py x y g.board, g) := by
  simp only [Pawn.capturing_st, Pawn.capturing, ChessGame.piece_at_st, can_capture_st_eq]
  split_ifs with h
  · rw [h, Bool.true_and]
  · rw [Bool.eq_false_iff.mpr h, Bool.false_and]

/-- Shared helper: the threaded `en_passant` returns the pure value and
the unchanged state. -/
lemma en_passant_st_eq (self : Piece) (px py x y : Int) (g : ChessGame) :
    Pawn.en_passant_st self px py x y g =
      (Pawn.en_passant self px py x y g.engine, g) := by
  simp only [Pawn.en_passant_st, Pawn.en_passant, ChessGame.last_move_st]
  cases g.engine.last_move with
  | none => rfl
  | some lm =>
    dsimp only
    split_ifs <;> rfl

/-- C8: `Pawn.legal_move` and `Knight.legal_move` are pure predicates —
the state-threaded transcriptions return exactly the pure boolean verdict
and leave the game (board, engine and history) unchanged. -/
theorem legal_move_pure (self : Piece) (px py x y : Int) (g : ChessGame) :
    Pawn.legal_move_st self px py x y g = (Pawn.legal_move self px py x y g, g) ∧
    Knight.legal_move_st self px py x y g = (Knight.legal_move self px py x y g, g) := by
  constructor
  · simp only [Pawn.legal_move_st, Pawn.legal_move, moving_forward_st_eq, capturing_st_eq,
      en_passant_st_eq]
    cases Pawn.moving_forward self px py x y g.board <;>
      cases Pawn.capturing self px py x y g.board <;>
        cases Pawn.en_passant self px py x y g.engine <;> rfl
  · simp only [Knight.legal_move_st, Knight.legal_move, can_capture_st_eq]
    split_ifs with h
    · rw [h, Bool.true_and]
    · rw [Bool.eq_false_iff.mpr h, Bool.false_and]

/-- Modelled from the spec: `piece_classes` (in `utils`, not under
`src/`) maps a piece-type name shown on a dialog button to the piece
class used to build the promotion piece. -/
def piece_classes : String → Option PieceType := fun name =>
  if name = "Queen" then some PieceType.QUEEN
  else if name = "Rook" then some PieceType.ROOK
  else if name = "Bishop" then some PieceType.BISHOP
  else if name = "Knight" then some PieceType.KNIGHT
  else none

/-- The selection state of `PromotionUI` (`src/ui/promotion_ui.py`): the
`_selected_promotion` member, `None` until a button is pressed. -/
structure PromotionUI where
  selected_promotion : Option PieceType
deriving DecidableEq, Repr

/-- The `select_piece` closure of `create_promotion_screen` (lines 57-60):
it records `piece_classes[piece_selected]` as the selected promotion. -/
def PromotionUI.select_piece (self : PromotionUI) (piece_selected : String) : PromotionUI :=
  { self with selected_promotion := piece_classes piece_selected }

/-- The list `pieces = ['Queen', 'Rook', 'Bishop', 'Knight']` of
`create_promotion_screen` (line 63). -/
def promotionPieces : List String := ["Queen", "Rook", "Bishop", "Knight"]

/-- The buttons laid out by `create_promotion_screen` (lines 63-71): one
per name in `pieces`, whose command runs `select_piece` with that name. -/
def PromotionUI.create_promotion_screen : List (String × (PromotionUI → PromotionUI)) :=
  promotionPieces.map (fun piece_name => (piece_name, fun ui => ui.select_piece piece_name))

/-- C9: the promotion dialog offers exactly the four buttons Queen, Rook,
Bishop and Knight; pressing a button records the corresponding piece class
as the chosen promotion, and no button records any other piece type. -/
theorem promotion_dialog_offers_four :
    PromotionUI.create_promotion_screen.map Prod.fst =
      ["Queen", "Rook", "Bishop", "Knight"] ∧
    (∀ ui : PromotionUI,
      PromotionUI.create_promotion_screen.map (fun b => (b.2 ui).selected_promotion) =
        [some PieceType.QUEEN, some PieceType.ROOK, some PieceType.BISHOP,
          some PieceType.KNIGHT]) := by
  exact ⟨rfl, fun ui => rfl⟩

/-- The white pawn used for the C10 witness, standing at (4,3). -/
def pawnC10 : Piece :=
  { x := 4, y := 3, team := TeamType.ALLY, is_white := true, type := PieceType.PAWN }

/-- A white rook, used as a non-pawn last-moved piece in the C10
witness. -/
def whiteRookC10 : Piece :=
  { x := 3, y := 3, team := TeamType.ALLY, is_white := true, type := PieceType.ROOK }

/-- A second white pawn, used as a same-color last-moved pawn in the C10
witness. -/
def whitePawn2C10 : Piece :=
  { x := 3, y := 3, team := TeamType.ALLY, is_white := true, type := PieceType.PAWN }

/-- C10: `Pawn.en_passant` returns false whenever no move has been played
yet, the last moved piece is not a pawn, or it has the pawn's own color;
hence a first-ever diagonal move onto an empty square is never accepted by
`Pawn.legal_move`. -/
theorem en_passant_guard_cases (self : Piece) (px py x y : Int) (game_engine : GameEngine) :
    (game_engine.last_move = none → Pawn.en_passant self px py x y game_engine = false) ∧
    (∀ lm : LastMove, game_engine.last_move = some lm → lm.1.type ≠ PieceType.PAWN →
      Pawn.en_passant self px py x y game_engine = false) ∧
    (∀ lm : LastMove, game_engine.last_move = some lm → lm.1.is_white = self.is_white →
      Pawn.en_passant self px py x y game_engine = false) ∧
    (∀ chess_game : ChessGame, chess_game.engine = game_engine →
      game_engine.last_move = none → chess_game.board.piece_at x y = none →
      (x - px).natAbs = 1 →
      Pawn.legal_move self px py x y chess_game = false) := by
  refine ⟨?_, ?_, ?_, ?_⟩
  · intro h
    simp [Pawn.en_passant, h]
  · intro lm h hty
    simp [Pawn.en_passant, h, hty]
  · intro lm h hcol
    simp [Pawn.en_passant, h, hcol]
  · intro chess_game hge h hempty habs
    have hep : Pawn.en_passant self px py x y chess_game.engine = false := by
      rw [hge]
      simp [Pawn.en_passant, h]
    have hmf : Pawn.moving_forward self px py x y chess_game.board = false := by
      have hx0 : (x - px == 0) = false := by
        rw [beq_eq_false_iff_ne]
        omega
      simp [Pawn.moving_forward, hx0]
    have hcap : Pawn.capturing self px py x y chess_game.board = false := by
      simp [Pawn.capturing, hempty]
    simp [Pawn.legal_move, hep, hmf, hcap]

/-- Witness for C10: with an empty history the pawn at (4,3) cannot play
the diagonal (4,3) → (3,2); nor can it after a rook move or after a
same-color pawn move. -/
theorem en_passant_guard_cases_witness :
    Pawn.en_passant pawnC10 4 3 3 2 { last_move := none } = false ∧
    Pawn.en_passant pawnC10 4 3 3 2 { last_move := some (whiteRookC10, (3, 1), (3, 3)) } = false ∧
    Pawn.en_passant pawnC10 4 3 3 2 { last_move := some (whitePawn2C10, (3, 1), (3, 3)) } = false ∧
    Pawn.legal_move pawnC10 4 3 3 2 emptyGame = false :=
  ⟨(en_passant_guard_cases pawnC10 4 3 3 2 { last_move := none }).1 rfl,
   (en_passant_guard_cases pawnC10 4 3 3 2 { last_move := some (whiteRookC10, (3, 1), (3, 3)) }).2.1
     (whiteRookC10, (3, 1), (3, 3)) rfl (by decide),
   (en_passant_guard_cases pawnC10 4 3 3 2
       { last_move := some (whitePawn2C10, (3, 1), (3, 3)) }).2.2.1
     (whitePawn2C10, (3, 1), (3, 3)) rfl (by decide),
   (en_passant_guard_cases pawnC10 4 3 3 2 emptyGame.engine).2.2.2 emptyGame rfl rfl rfl
     (by decide)⟩
